import Mathlib

/-!
Shallow embedding of the `slogan` logging library (Go) — the log-line
formatting and severity-gating engine.

The embedding translates the package-level mutable globals of the Go source
into an explicit `State` record, and each function that reads or writes those
globals into a pure function over `State`.  External collaborators (the
line-oriented sink, the terminal detector, the ANSI color primitive, the
call-stack introspection, process exit) are modelled as data:
  * the sink receives lines, collected in a `List String` result;
  * `os.Exit(code)` is modelled as an `Option Int` exit code in the result;
  * a Go runtime panic (array index out of range) is modelled as `Option.none`
    at the result type;
  * `runtime.Caller(depth)` is modelled by a `stack` field of the state
    (frame `i` maps to a `(file, line)` pair; a failed lookup yields
    `("", 0)`, the Go zero values, since the source ignores `ok`);
  * the `bclicn/color` primitive is modelled by `applyStyle`, an injective
    wrapper of the text determined by the style name.
Go `fmt.Sprintf` is modelled by `goFormat`, covering exactly the directives
the package's templates use (`%%`, `%s`, `%d`, `%v`, `%T`, the `+`/`#` flags
and one-digit explicit argument indexes `%[n]`); any other directive is kept
literally, the documented best-effort behaviour for malformed templates.
-/

namespace Slogan

/-- Constants for log levels (source: `const` block). -/
def Lsilent : Int := 0

def Lemergency : Int := 1

def Lalert : Int := 2

def Lcritical : Int := 3

def Lerror : Int := 4

def Lwarning : Int := 5

def Lnotice : Int := 6

def Linfo : Int := 7

def Ldebug : Int := 8

def Ltrace : Int := 9

/-- An `io.Writer` handed to `SetOutput`: the process's standard error or
standard output stream, or any other writer (a file, identified by a number). -/
inductive Writer where
  | stderr : Writer
  | stdout : Writer
  | file (id : Nat) : Writer
deriving DecidableEq, Repr

/-- A Go value passed to `Trace(trace interface{})`, abstracted by the four
renderings `fmt` can produce of it: `%T`, `%v`, `%+v` and `%#v`. -/
structure GoValue where
  typeStr : String
  vStr : String
  plusStr : String
  sharpStr : String
deriving DecidableEq, Repr

/-- An argument supplied to the `goFormat` model of `fmt.Sprintf`. -/
inductive FmtArg where
  | str (v : String) : FmtArg
  | int (v : Int) : FmtArg
  | val (v : GoValue) : FmtArg
deriving DecidableEq, Repr

/-- The verbs of `fmt` appearing in the package's templates. -/
def isVerb (c : Char) : Bool :=
  c = 's' ∨ c = 'd' ∨ c = 'v' ∨ c = 'T'

/-- The `fmt` flags appearing in the package's templates. -/
def isFlag (c : Char) : Bool :=
  c = '+' ∨ c = '#'

/-- Render one argument under a verb and an optional flag. -/
def renderArg (flag : Option Char) (verb : Char) : Option FmtArg → String
  | none => "%!(MISSING)"
  | some (.str v) => if verb = 's' ∨ verb = 'v' then v else "%!(BADVERB)"
  | some (.int n) => if verb = 'd' ∨ verb = 'v' then toString n else "%!(BADVERB)"
  | some (.val g) =>
    match verb with
    | 'T' => g.typeStr
    | 'v' =>
      match flag with
      | some '+' => g.plusStr
      | some '#' => g.sharpStr
      | _ => g.vStr
    | _ => "%!(BADVERB)"

/-- Character-level worker of `goFormat`.  The `Nat` is the zero-based index
of the next sequential argument; an explicit index `%[n]` uses argument `n-1`
and resets the sequence position to `n`, following Go's `fmt` semantics. -/
def goFormatAux (args : List FmtArg) : List Char → Nat → List Char
  | '%' :: '%' :: r, i => '%' :: goFormatAux args r i
  | '%' :: '[' :: n :: ']' :: v :: r, i =>
    if n.isDigit ∧ isVerb v then
      (renderArg none v (args.get? (n.toNat - 49))).data ++ goFormatAux args r (n.toNat - 48)
    else
      '%' :: goFormatAux args ('[' :: n :: ']' :: v :: r) i
  | '%' :: f :: '[' :: n :: ']' :: v :: r, i =>
    if isFlag f ∧ n.isDigit ∧ isVerb v then
      (renderArg (some f) v (args.get? (n.toNat - 49))).data ++ goFormatAux args r (n.toNat - 48)
    else
      '%' :: goFormatAux args (f :: '[' :: n :: ']' :: v :: r) i
  | '%' :: f :: v :: r, i =>
    if isFlag f ∧ isVerb v then
      (renderArg (some f) v (args.get? i)).data ++ goFormatAux args r (i + 1)
    else if isVerb f then
      (renderArg none f (args.get? i)).data ++ goFormatAux args (v :: r) (i + 1)
    else
      '%' :: goFormatAux args (f :: v :: r) i
  | '%' :: [v], i =>
    if isVerb v then (renderArg none v (args.get? i)).data ++ goFormatAux args [] (i + 1)
    else '%' :: [v]
  | ['%'], _ => ['%']
  | c :: r, i => c :: goFormatAux args r i
  | [], _ => []

/-- Model of `fmt.Sprintf` for the directives used by the package. -/
def goFormat (f : String) (args : List FmtArg) : String :=
  String.mk (goFormatAux args f.data 0)

/-- Go map lookup with the zero value as default (`m[k]` on a missing key). -/
def lookupD {α β : Type} [BEq α] (l : List (α × β)) (k : α) (d : β) : β :=
  match l.find? (fun p => p.1 == k) with
  | some p => p.2
  | none => d

/-- `formats[k]` (zero value `""` for a missing key). -/
def formatsGet (l : List (String × String)) (k : String) : String :=
  lookupD l k ""

/-- `colors[level]` (zero value `""` for a missing key). -/
def colorsGet (l : List (Int × String)) (k : Int) : String :=
  lookupD l k ""

/-- `parts[what]` (zero value `false` for a missing key). -/
def partsGet (l : List (String × Bool)) (k : String) : Bool :=
  lookupD l k false

/-- `tags[level]` on the Go array `[10]string`: `none` models the runtime
panic "index out of range" for a level outside the bounds. -/
def tagsGet (l : List String) (i : Int) : Option String :=
  if 0 ≤ i then l.get? i.toNat else none

/-- `runtime.Caller(depth)`: the source ignores `ok`, so a failed lookup
returns the zero values `("", 0)`. -/
def callerAt (stack : List (String × Int)) (depth : Int) : String × Int :=
  if 0 ≤ depth then stack.getD depth.toNat ("", 0) else ("", 0)

/-- `path.Base` of the Go standard library. -/
def pathBase (p : String) : String :=
  if p = "" then "."
  else
    let trimmed := (p.data.reverse.dropWhile (fun c => c = '/')).reverse
    if trimmed = [] then "/"
    else String.mk (trimmed.reverse.takeWhile (fun c => c ≠ '/')).reverse

/-- The package-level mutable globals of the source, as one record. -/
structure State where
  Verbosity : Int
  ExitOnError : Bool
  WarningAsError : Bool
  TraceCaller : Bool
  CallerBase : Bool
  Colorize : Bool
  ForceColorize : Bool
  NoEmpty : Bool
  isTerminal : Bool
  tags : List String
  formats : List (String × String)
  colors : List (Int × String)
  parts : List (String × Bool)
  offset : Int
  sink : Writer
  stack : List (String × Int)
deriving DecidableEq, Repr

/-- Default tag map (source: `var tags = [10]string{...}`). -/
def defaultTags : List String :=
  ["", "emergency", "alert    ", "critical ", "error    ", "warning  ",
   "notice   ", "info     ", "debug    ", "trace    "]

/-- Default format map (source: `var formats = map[string]string{...}`). -/
def defaultFormats : List (String × String) :=
  [("fatal", "Immediate exit with code %d"),
   ("trace", "%[1]T\n %%v: %[1]v\n\n%%v+: %+[1]v\n\n%%#v: %#[1]v"),
   ("empty", "%#v"),
   ("runtime", "OS:%s ARCH:%s CPU:%d COMPILER:%s ROOT:%s"),
   ("default", "   %[1]s %[2]s"),
   ("caller", "   %[1]s %[3]s\t %[2]s"),
   ("where", "%s:%d"),
   ("alldone", "All done in : %s"),
   ("elapsed", "Elapsed time : %s")]

/-- Default color map (source: `var colors = map[int]string{...}`). -/
def defaultColors : List (Int × String) :=
  [(10, "Underline"), (9, "DarkGray"), (8, "DarkGray"), (7, "Purple"),
   (6, "Green"), (5, "Yellow"), (4, "LightRed"), (3, "Red"),
   (2, "BLightRed"), (1, "BRed"), (0, "")]

/-- Default parts map (source: `var parts = map[string]bool{...}`). -/
def defaultParts : List (String × Bool) :=
  [("caller", true), ("tag", true), ("log", false), ("prefix", false)]

/-- The state at package initialization; `term` is the result of the
terminal detection `terminal.IsTerminal(int(os.Stderr.Fd()))`, and `stack`
the call-stack context the process provides to `runtime.Caller`. -/
def initialState (term : Bool) (stack : List (String × Int)) : State :=
  { Verbosity := Lwarning
    ExitOnError := false
    WarningAsError := false
    TraceCaller := false
    CallerBase := true
    Colorize := true
    ForceColorize := false
    NoEmpty := false
    isTerminal := term
    tags := defaultTags
    formats := defaultFormats
    colors := defaultColors
    parts := defaultParts
    offset := 0
    sink := Writer.stderr
    stack := stack }

/-- Model of the external `bclicn/color` primitive: wraps the text in an
escape sequence determined by the style name.  The concrete escape codes are
outside the core (see the spec's scope); the wrapper keeps the application
observable and injective. -/
def applyStyle (name str : String) : String :=
  "\x1b[" ++ name ++ "m" ++ str ++ "\x1b[0m"

/-- The switch body of `setcolor`: dispatch over the style name found in the
color map, one case per `color.*` function of the source, with the source's
pass-through `default` case. -/
def styleSwitch (name : String) (str : String) : String :=
  match name with
  | "Black" => applyStyle "Black" str
  | "Red" => applyStyle "Red" str
  | "Green" => applyStyle "Green" str
  | "Yellow" => applyStyle "Yellow" str
  | "Blue" => applyStyle "Blue" str
  | "Purple" => applyStyle "Purple" str
  | "Cyan" => applyStyle "Cyan" str
  | "LightGray" => applyStyle "LightGray" str
  | "DarkGray" => applyStyle "DarkGray" str
  | "LightRed" => applyStyle "LightRed" str
  | "LightGreen" => applyStyle "LightGreen" str
  | "LightYellow" => applyStyle "LightYellow" str
  | "LightBlue" => applyStyle "LightBlue" str
  | "LightPurple" => applyStyle "LightPurple" str
  | "LightCyan" => applyStyle "LightCyan" str
  | "White" => applyStyle "White" str
  | "BBlack" => applyStyle "BBlack" str
  | "BRed" => applyStyle "BRed" str
  | "BGreen" => applyStyle "BGreen" str
  | "BYellow" => applyStyle "BYellow" str
  | "BBlue" => applyStyle "BBlue" str
  | "BPurple" => applyStyle "BPurple" str
  | "BCyan" => applyStyle "BCyan" str
  | "BLightGray" => applyStyle "BLightGray" str
  | "BDarkGray" => applyStyle "BDarkGray" str
  | "BLightRed" => applyStyle "BLightRed" str
  | "BLightGreen" => applyStyle "BLightGreen" str
  | "BLightYellow" => applyStyle "BLightYellow" str
  | "BLightBlue" => applyStyle "BLightBlue" str
  | "BLightPurple" => applyStyle "BLightPurple" str
  | "BLightCyan" => applyStyle "BLightCyan" str
  | "BWhite" => applyStyle "BWhite" str
  | "GBlack" => applyStyle "GBlack" str
  | "GRed" => applyStyle "GRed" str
  | "GGreen" => applyStyle "GGreen" str
  | "GYellow" => applyStyle "GYellow" str
  | "GBlue" => applyStyle "GBlue" str
  | "GPurple" => applyStyle "GPurple" str
  | "GCyan" => applyStyle "GCyan" str
  | "GLightGray" => applyStyle "GLightGray" str
  | "GDarkGray" => applyStyle "GDarkGray" str
  | "GLightRed" => applyStyle "GLightRed" str
  | "GLightGreen" => applyStyle "GLightGreen" str
  | "GLightYellow" => applyStyle "GLightYellow" str
  | "GLightBlue" => applyStyle "GLightBlue" str
  | "GLightPurple" => applyStyle "GLightPurple" str
  | "GLightCyan" => applyStyle "GLightCyan" str
  | "GWhite" => applyStyle "GWhite" str
  | "Bold" => applyStyle "Bold" str
  | "Dim" => applyStyle "Dim" str
  | "Underline" => applyStyle "Underline" str
  | "Invert" => applyStyle "Invert" str
  | "Hide" => applyStyle "Hide" str
  | "Blink" => applyStyle "Blink" str
  | _ => str

/-- The style names the switch of `setcolor` recognizes. -/
def styleNames : List String :=
  ["Black", "Red", "Green", "Yellow", "Blue", "Purple", "Cyan", "LightGray",
   "DarkGray", "LightRed", "LightGreen", "LightYellow", "LightBlue",
   "LightPurple", "LightCyan", "White",
   "BBlack", "BRed", "BGreen", "BYellow", "BBlue", "BPurple", "BCyan",
   "BLightGray", "BDarkGray", "BLightRed", "BLightGreen", "BLightYellow",
   "BLightBlue", "BLightPurple", "BLightCyan", "BWhite",
   "GBlack", "GRed", "GGreen", "GYellow", "GBlue", "GPurple", "GCyan",
   "GLightGray", "GDarkGray", "GLightRed", "GLightGreen", "GLightYellow",
   "GLightBlue", "GLightPurple", "GLightCyan", "GWhite",
   "Bold", "Dim", "Underline", "Invert", "Hide", "Blink"]

/-- Whether a style name is one the switch of `setcolor` recognizes. -/
def recognizedStyle (name : String) : Bool :=
  styleNames.contains name

/-- `setcolor(what, level, str)`: look up the style for `level` in the color
map and dispatch on it (the switch body is `styleSwitch`). -/
def setcolor (s : State) (_what : String) (level : Int) (str : String) : String :=
  styleSwitch (colorsGet s.colors level) str

/-- `colorize(what, level, str)` from the source. -/
def colorize (s : State) (what : String) (level : Int) (str : String) : String :=
  if s.isTerminal = false ∧ s.ForceColorize = false then str
  else if s.Colorize = true ∧ partsGet s.parts what = true then setcolor s what level str
  else str

/-- `logfmt(level, log)` from the source: `none` models the Go panic when
the tag-array index `tags[level]` is out of range. -/
def logfmt (s : State) (level : Int) (msg : String) : Option String :=
  match tagsGet s.tags level with
  | none => none
  | some tag =>
    let c := callerAt s.stack (3 + s.offset)
    if s.TraceCaller = true then
      let fn := if s.CallerBase = true then pathBase c.1 else c.1
      let caller := colorize s "caller" 10 (goFormat (formatsGet s.formats "where") [.str fn, .int c.2])
      some (goFormat (formatsGet s.formats "caller")
        [.str (colorize s "tag" level tag), .str (colorize s "log" level msg), .str caller])
    else
      some (goFormat (formatsGet s.formats "default")
        [.str (colorize s "tag" level tag), .str (colorize s "log" level msg), .str ""])

/-- The emission phase of `Log` (the first `if` block of the source): the
lines written to the sink, or `none` for a panic inside `logfmt`. -/
def logEmit (s : State) (level : Int) (msg : String) : Option (List String) :=
  if s.Verbosity ≥ level then
    if s.NoEmpty = true ∧ msg.length = 0 then some []
    else
      match logfmt s level msg with
      | none => none
      | some str => some [str]
  else some []

/-- `Log(level, log)` from the source.  The result is `none` for a panic;
otherwise `some (lines, code)` where `lines` are the sink writes in order and
`code` the `os.Exit` status when the termination branch fires.  The `Debug`
call of the termination branch runs at level `Ldebug = 8`, which never
satisfies the termination guard again, so its effect is exactly its emission
phase `logEmit`, taken at the stack-depth offset raised by the branch's two
`incr_offset` calls. -/
def Log (s : State) (level : Int) (msg : String) : Option (List String × Option Int) :=
  match logEmit s level msg with
  | none => none
  | some lines =>
    if (level < Lwarning ∨ (level = Lwarning ∧ s.WarningAsError = true)) ∧ s.ExitOnError = true then
      match logEmit { s with offset := s.offset + 2 } Ldebug
          (goFormat (formatsGet s.formats "fatal") [.int level]) with
      | none => none
      | some lines2 => some (lines ++ lines2, some level)
    else some (lines, none)

/-- `Silent(log)` from the source. -/
def Silent (s : State) (msg : String) : Option (List String × Option Int) :=
  Log s Lsilent msg

/-- `Trace(trace)` from the source: values rendering to `"[]"` use the
`empty` format, others the multi-line `trace` format. -/
def Trace (s : State) (v : GoValue) : Option (List String × Option Int) :=
  if v.vStr = "[]" then Log s Ltrace (goFormat (formatsGet s.formats "empty") [.val v])
  else Log s Ltrace (goFormat (formatsGet s.formats "trace") [.val v])

/-- `TraceCall(trace)` from the source: set `TraceCaller` to `true`, run
`Trace`, and restore by the deferred `SetTraceCaller(false)`.  Level
`Ltrace = 9` never satisfies the termination guard, so the call returns; the
result carries the written lines and the state after the deferred restore. -/
def TraceCall (s : State) (v : GoValue) : Option (List String × State) :=
  match Trace { s with TraceCaller := true } v with
  | none => none
  | some (out, _) => some (out, { s with TraceCaller := false })

/-- `GetTags()` from the source. -/
def GetTags (s : State) : List String :=
  s.tags

/-- `SetTags(n)` from the source: returns the former map, installs the new. -/
def SetTags (s : State) (n : List String) : List String × State :=
  (s.tags, { s with tags := n })

/-- `GetFormats()` from the source. -/
def GetFormats (s : State) : List (String × String) :=
  s.formats

/-- `SetFormats(n)` from the source. -/
def SetFormats (s : State) (n : List (String × String)) : List (String × String) × State :=
  (s.formats, { s with formats := n })

/-- `GetColors()` from the source. -/
def GetColors (s : State) : List (Int × String) :=
  s.colors

/-- `SetColors(n)` from the source. -/
def SetColors (s : State) (n : List (Int × String)) : List (Int × String) × State :=
  (s.colors, { s with colors := n })

/-- `GetParts()` from the source. -/
def GetParts (s : State) : List (String × Bool) :=
  s.parts

/-- `SetParts(n)` from the source. -/
def SetParts (s : State) (n : List (String × Bool)) : List (String × Bool) × State :=
  (s.parts, { s with parts := n })

/-- `SetOutput(w)` from the source, condition verbatim:
`if w != os.Stderr || w != os.Stdout { isTerminal = false }`. -/
def SetOutput (s : State) (w : Writer) : State :=
  let s1 := if w ≠ Writer.stderr ∨ w ≠ Writer.stdout then { s with isTerminal := false } else s
  { s1 with sink := w }

/-- `IsTerminal()` from the source. -/
def IsTerminal (s : State) : Bool :=
  s.isTerminal

/-- The library state right after initialization on a non-terminal stream,
with exit-on-error switched on (`SetExitOnError(true)`). -/
def exitState : State :=
  { initialState false [] with ExitOnError := true }

/-- A state exercising suppress-empty together with the termination path:
`SetNoEmpty(true)`, `SetExitOnError(true)`, `SetVerbosity(9)`. -/
def emptyExitState : State :=
  { initialState false [] with ExitOnError := true, NoEmpty := true, Verbosity := 9 }

/-- A state in which caller tracing has been switched on globally. -/
def tracingState : State :=
  { initialState false [] with TraceCaller := true }

/-- A sample traced Go value (`42 : int`). -/
def sampleVal : GoValue :=
  { typeStr := "int", vStr := "42", plusStr := "42", sharpStr := "42" }

/-- The default parts map with the entry for the `"prefix"` part flipped to
`true` — it differs from `defaultParts` only at that key. -/
def demoParts2 : List (String × Bool) :=
  [("caller", true), ("tag", true), ("log", false), ("prefix", true)]

/-- The tag-array lookup succeeds for every index within the array bounds. -/
theorem tagsGet_total (l : List String) (L : Int) (h0 : 0 ≤ L) (hl : L.toNat < l.length) :
    ∃ t, tagsGet l L = some t := by
  unfold tagsGet
  rw [if_pos h0]
  cases h : l.get? L.toNat with
  | none => exact absurd (List.get?_eq_none.mp h) (by omega)
  | some t => exact ⟨t, rfl⟩

/-- `logfmt` is total for a level within the bounds of the 10-slot tag array. -/
theorem logfmt_total (s : State) (L : Int) (msg : String)
    (h0 : 0 ≤ L) (h9 : L ≤ 9) (ht : s.tags.length = 10) :
    ∃ str, logfmt s L msg = some str := by
  obtain ⟨t, htag⟩ := tagsGet_total s.tags L h0 (by omega)
  simp only [logfmt, htag]
  split
  · exact ⟨_, rfl⟩
  · exact ⟨_, rfl⟩

/-- The emission phase is total for a level within the tag-array bounds. -/
theorem logEmit_total (s : State) (L : Int) (msg : String)
    (h0 : 0 ≤ L) (h9 : L ≤ 9) (ht : s.tags.length = 10) :
    ∃ lines, logEmit s L msg = some lines := by
  unfold logEmit
  by_cases hv : s.Verbosity ≥ L
  · rw [if_pos hv]
    by_cases hne : s.NoEmpty = true ∧ msg.length = 0
    · rw [if_pos hne]
      exact ⟨[], rfl⟩
    · rw [if_neg hne]
      obtain ⟨str, hstr⟩ := logfmt_total s L msg h0 h9 ht
      rw [hstr]
      exact ⟨[str], rfl⟩
  · rw [if_neg hv]
    exact ⟨[], rfl⟩

/-- With suppress-empty disabled, the emission phase writes the rendered line
exactly when the verbosity threshold admits the level. -/
theorem logEmit_eq (s : State) (L : Int) (msg : String) (str : String)
    (hne : s.NoEmpty = false) (hstr : logfmt s L msg = some str) :
    logEmit s L msg = some (if s.Verbosity ≥ L then [str] else []) := by
  unfold logEmit
  by_cases hv : s.Verbosity ≥ L
  · rw [if_pos hv, if_pos hv, if_neg (by simp [hne]), hstr]
  · rw [if_neg hv, if_neg hv]

/-- A log call whose level does not satisfy the termination guard returns
without an exit code. -/
theorem Log_no_term (s : State) (L : Int) (msg : String)
    (h0 : 0 ≤ L) (h9 : L ≤ 9) (ht : s.tags.length = 10)
    (h : ¬((L < Lwarning ∨ (L = Lwarning ∧ s.WarningAsError = true)) ∧ s.ExitOnError = true)) :
    ∃ lines, Log s L msg = some (lines, none) := by
  obtain ⟨lines, hl⟩ := logEmit_total s L msg h0 h9 ht
  exact ⟨lines, by simp only [Log, hl, if_neg h]⟩

/-- An unrecognized (or empty) style name makes the switch of `setcolor` a
pass-through. -/
theorem styleSwitch_unrecognized (name str : String) (h : recognizedStyle name = false) :
    styleSwitch name str = str := by
  unfold styleSwitch
  split
  all_goals first
    | rfl
    | exact absurd h (by decide)

/-- Claim C1: for every severity level L in [0,9] and every verbosity
threshold, `Log(L, msg)` renders the message through `logfmt` and writes the
rendered line to the sink if and only if `Verbosity >= L`, when suppress-empty
is disabled.  The sink output is pinned exactly in both directions: the
rendered line is present exactly when the threshold admits the level, and the
only other output is the termination diagnostic (the level-8 emission phase)
when the termination guard fires — in particular, when `Verbosity < L` and no
termination fires, nothing at all is written. -/
theorem c1_log_emits_iff_verbosity (s : State) (L : Int) (msg : String)
    (hne : s.NoEmpty = false) (h0 : 0 ≤ L) (h9 : L ≤ 9) (ht : s.tags.length = 10) :
    ∃ str, logfmt s L msg = some str ∧
      (((L < Lwarning ∨ (L = Lwarning ∧ s.WarningAsError = true)) ∧ s.ExitOnError = true →
        ∃ dlines, logEmit { s with offset := s.offset + 2 } Ldebug
            (goFormat (formatsGet s.formats "fatal") [.int L]) = some dlines ∧
          Log s L msg = some ((if s.Verbosity ≥ L then [str] else []) ++ dlines, some L))
      ∧ (¬((L < Lwarning ∨ (L = Lwarning ∧ s.WarningAsError = true)) ∧ s.ExitOnError = true) →
        Log s L msg = some ((if s.Verbosity ≥ L then [str] else []), none))) := by
  obtain ⟨str, hstr⟩ := logfmt_total s L msg h0 h9 ht
  have hemit := logEmit_eq s L msg str hne hstr
  refine ⟨str, hstr, ?_, ?_⟩
  · intro hterm
    obtain ⟨dlines, hd⟩ :=
      logEmit_total { s with offset := s.offset + 2 } Ldebug
        (goFormat (formatsGet s.formats "fatal") [.int L]) (by decide) (by decide) ht
    exact ⟨dlines, hd, by simp only [Log, hemit, if_pos hterm, hd]⟩
  · intro hterm
    simp only [Log, hemit, if_neg hterm]

/-- Witness for C1 at the initial state (Verbosity = 5), exercising both
directions: level 3 is written as the single sink line, level 7 produces no
sink output at all. -/
theorem c1_log_emits_iff_verbosity_witness :
    (∃ str, logfmt (initialState false []) 3 "m" = some str ∧
      Log (initialState false []) 3 "m" = some ([str], none)) ∧
    Log (initialState false []) 7 "m" = some ([], none) := by
  obtain ⟨str3, hf3, hc3⟩ :=
    c1_log_emits_iff_verbosity (initialState false []) 3 "m" rfl (by decide) (by decide)
      (by decide)
  obtain ⟨str7, hf7, hc7⟩ :=
    c1_log_emits_iff_verbosity (initialState false []) 7 "m" rfl (by decide) (by decide)
      (by decide)
  have h3 := hc3.2 (by decide)
  have h7 := hc7.2 (by decide)
  rw [if_pos (by decide : (initialState false []).Verbosity ≥ (3 : Int))] at h3
  rw [if_neg (by decide : ¬((initialState false []).Verbosity ≥ (7 : Int)))] at h7
  exact ⟨⟨str3, hf3, h3⟩, h7⟩

/-- Claim C2, counterexample: at the initial configuration (Verbosity = 5) with
exit-on-error set, a call at level 4 terminates with exit status 4 but writes
only the one rendered message line — the debug-level `fatal` diagnostic is not
emitted, because level 8 does not pass the verbosity gate.  This refutes the
claim that the diagnostic line is emitted whenever termination fires. -/
theorem c2_counterexample :
    Log exitState 4 "boom" = some (["   error     boom"], some 4) := by
  decide

/-- Claim C2 (amended): with exit-on-error set and warning-as-error unset, a
log call at level 1–4 terminates with exit status equal to the level, a call at
level 5 does not terminate, and levels 6–9 never terminate; with
warning-as-error also set, level 5 terminates with status 5.  When termination
fires, a debug-level diagnostic built from the `fatal` format with the
triggering level as argument is passed through the normal emission phase (at
the stack offset raised by two) before the exit, so it is written only when it
passes the verbosity gate and the suppress-empty check. -/
theorem c2_exit_policy (s : State) (msg : String)
    (hE : s.ExitOnError = true) (ht : s.tags.length = 10) :
    (∀ L : Int, s.WarningAsError = false → 1 ≤ L → L ≤ 4 →
      ∃ lines dlines, logEmit { s with offset := s.offset + 2 } Ldebug
          (goFormat (formatsGet s.formats "fatal") [.int L]) = some dlines ∧
        Log s L msg = some (lines ++ dlines, some L))
    ∧ (s.WarningAsError = false → ∃ lines, Log s Lwarning msg = some (lines, none))
    ∧ (∀ L : Int, 6 ≤ L → L ≤ 9 → ∃ lines, Log s L msg = some (lines, none))
    ∧ (s.WarningAsError = true →
      ∃ lines dlines, logEmit { s with offset := s.offset + 2 } Ldebug
          (goFormat (formatsGet s.formats "fatal") [.int Lwarning]) = some dlines ∧
        Log s Lwarning msg = some (lines ++ dlines, some Lwarning)) := by
  refine ⟨?_, ?_, ?_, ?_⟩
  · intro L hw h1 h4
    obtain ⟨lines, hl⟩ := logEmit_total s L msg (by omega) (by omega) ht
    obtain ⟨dlines, hd⟩ :=
      logEmit_total { s with offset := s.offset + 2 } Ldebug
        (goFormat (formatsGet s.formats "fatal") [.int L]) (by decide) (by decide) ht
    have hterm : (L < Lwarning ∨ (L = Lwarning ∧ s.WarningAsError = true)) ∧ s.ExitOnError = true :=
      ⟨Or.inl (by unfold Lwarning; omega), hE⟩
    exact ⟨lines, dlines, hd, by simp only [Log, hl, if_pos hterm, hd]⟩
  · intro hw
    refine Log_no_term s Lwarning msg (by decide) (by decide) ht ?_
    rintro ⟨hc | ⟨_, hc⟩, _⟩
    · exact absurd hc (by decide)
    · rw [hw] at hc
      cases hc
  · intro L h6 h9
    refine Log_no_term s L msg (by omega) (by omega) ht ?_
    rintro ⟨hc | ⟨hc, _⟩, _⟩
    · unfold Lwarning at hc
      omega
    · unfold Lwarning at hc
      omega
  · intro hw
    obtain ⟨lines, hl⟩ := logEmit_total s Lwarning msg (by decide) (by decide) ht
    obtain ⟨dlines, hd⟩ :=
      logEmit_total { s with offset := s.offset + 2 } Ldebug
        (goFormat (formatsGet s.formats "fatal") [.int Lwarning]) (by decide) (by decide) ht
    have hterm : (Lwarning < Lwarning ∨ (True ∧ s.WarningAsError = true))
        ∧ s.ExitOnError = true := ⟨Or.inr ⟨trivial, hw⟩, hE⟩
    refine ⟨lines, dlines, hd, ?_⟩
    simp only [Log, hl, hd]
    rw [if_pos hterm]

/-- Witness for the amended C2 at a concrete state and level 3. -/
theorem c2_exit_policy_witness :
    ∃ lines dlines, logEmit { exitState with offset := exitState.offset + 2 } Ldebug
        (goFormat (formatsGet exitState.formats "fatal") [.int 3]) = some dlines ∧
      Log exitState 3 "m" = some (lines ++ dlines, some 3) :=
  (c2_exit_policy exitState "m" rfl (by decide)).1 3 rfl (by decide) (by decide)

/-- Claim C3: the code violates the claim — with exit-on-error set, `Silent`
(level 0) satisfies the termination guard `level < Lwarning` and the process
is terminated with exit status 0, under both settings of warning-as-error.
The claim (and the README, which documents fatal exit codes as 1–4 or 5) is
the intent; the guard fails to exempt level 0. -/
theorem c3_silent_terminates_eval :
    Silent exitState "m" = some (["    m"], some 0) ∧
    Silent { exitState with WarningAsError := true } "m" = some (["    m"], some 0) := by
  decide

/-- Claim C4, counterexample: with suppress-empty on, Verbosity = 9 ≥ 4 and
exit-on-error set, `Log(4, "")` writes a line to the sink — the debug-level
termination diagnostic — refuting the claim that nothing is written. -/
theorem c4_counterexample :
    Log emptyExitState 4 "" =
      some (["   debug     Immediate exit with code 4"], some 4) := by
  decide

/-- Claim C4 (amended): for every level L in [0,9] with Verbosity ≥ L, when
suppress-empty is on and the message has zero length, the message line itself
is not written, and the termination decision is still evaluated and fires
exactly as it would for any other message at that level; when it fires, the
sink receives only the debug-level termination diagnostic. -/
theorem c4_empty_suppressed_still_terminates (s : State) (L : Int)
    (hne : s.NoEmpty = true) (hv : s.Verbosity ≥ L) (h0 : 0 ≤ L) (h9 : L ≤ 9)
    (ht : s.tags.length = 10) :
    ((L < Lwarning ∨ (L = Lwarning ∧ s.WarningAsError = true)) ∧ s.ExitOnError = true →
      ∃ dlines, logEmit { s with offset := s.offset + 2 } Ldebug
          (goFormat (formatsGet s.formats "fatal") [.int L]) = some dlines ∧
        Log s L "" = some (dlines, some L))
    ∧ (¬((L < Lwarning ∨ (L = Lwarning ∧ s.WarningAsError = true)) ∧ s.ExitOnError = true) →
      Log s L "" = some ([], none))
    ∧ (∀ msg' : String, ∃ lines' code', Log s L msg' = some (lines', code') ∧
        (Log s L "").map Prod.snd = some code') := by
  have hc : s.NoEmpty = true ∧ ("" : String).length = 0 := ⟨hne, rfl⟩
  have hmain : logEmit s L "" = some [] := by
    simp only [logEmit, if_pos hv, if_pos hc]
  refine ⟨?_, ?_, ?_⟩
  · intro hterm
    obtain ⟨dlines, hd⟩ :=
      logEmit_total { s with offset := s.offset + 2 } Ldebug
        (goFormat (formatsGet s.formats "fatal") [.int L]) (by decide) (by decide) ht
    exact ⟨dlines, hd, by simp only [Log, hmain, if_pos hterm, hd, List.nil_append]⟩
  · intro hterm
    simp only [Log, hmain, if_neg hterm]
  · intro msg'
    obtain ⟨lines', hl'⟩ := logEmit_total s L msg' h0 h9 ht
    by_cases hterm : (L < Lwarning ∨ (L = Lwarning ∧ s.WarningAsError = true)) ∧ s.ExitOnError = true
    · obtain ⟨dlines, hd⟩ :=
        logEmit_total { s with offset := s.offset + 2 } Ldebug
          (goFormat (formatsGet s.formats "fatal") [.int L]) (by decide) (by decide) ht
      refine ⟨lines' ++ dlines, some L, by simp only [Log, hl', if_pos hterm, hd], ?_⟩
      simp only [Log, hmain, if_pos hterm, hd]
      rfl
    · refine ⟨lines', none, by simp only [Log, hl', if_neg hterm], ?_⟩
      simp only [Log, hmain, if_neg hterm]
      rfl

/-- Witness for the amended C4 at a concrete state and level 4. -/
theorem c4_empty_suppressed_still_terminates_witness :
    ∃ dlines, logEmit { emptyExitState with offset := emptyExitState.offset + 2 } Ldebug
        (goFormat (formatsGet emptyExitState.formats "fatal") [.int 4]) = some dlines ∧
      Log emptyExitState 4 "" = some (dlines, some 4) :=
  (c4_empty_suppressed_still_terminates emptyExitState 4 rfl (by decide) (by decide)
    (by decide) (by decide)).1 (by decide)

/-- Claim C5: `colorize(part, level, text)` returns the text unchanged when
the destination is not a terminal and force-colorize is unset, or when global
colorize is off, or when the named part is disabled in the parts map, or when
the style name the color map assigns to the level is empty or unrecognized —
each condition suffices on its own. -/
theorem c5_colorize_passthrough (s : State) (what : String) (level : Int) (str : String)
    (h : (s.isTerminal = false ∧ s.ForceColorize = false) ∨ s.Colorize = false ∨
      partsGet s.parts what = false ∨ recognizedStyle (colorsGet s.colors level) = false) :
    colorize s what level str = str := by
  unfold colorize
  rcases h with h1 | h2 | h3 | h4
  · rw [if_pos h1]
  · by_cases h1 : s.isTerminal = false ∧ s.ForceColorize = false
    · rw [if_pos h1]
    · rw [if_neg h1, if_neg]
      rintro ⟨hc, _⟩
      rw [h2] at hc
      cases hc
  · by_cases h1 : s.isTerminal = false ∧ s.ForceColorize = false
    · rw [if_pos h1]
    · rw [if_neg h1, if_neg]
      rintro ⟨_, hp⟩
      rw [h3] at hp
      cases hp
  · by_cases h1 : s.isTerminal = false ∧ s.ForceColorize = false
    · rw [if_pos h1]
    · rw [if_neg h1]
      by_cases hcp : s.Colorize = true ∧ partsGet s.parts what = true
      · rw [if_pos hcp]
        exact styleSwitch_unrecognized _ _ h4
      · rw [if_neg hcp]

/-- Witness for C5: one instance per pass-through condition, at concrete
states derived from the initial configuration. -/
theorem c5_colorize_passthrough_witness :
    colorize (initialState false []) "tag" 4 "txt" = "txt" ∧
    colorize { initialState true [] with Colorize := false } "tag" 4 "txt" = "txt" ∧
    colorize (initialState true []) "log" 4 "txt" = "txt" ∧
    colorize (initialState true []) "tag" 0 "txt" = "txt" :=
  ⟨c5_colorize_passthrough (initialState false []) "tag" 4 "txt" (Or.inl ⟨rfl, rfl⟩),
   c5_colorize_passthrough { initialState true [] with Colorize := false } "tag" 4 "txt"
     (Or.inr (Or.inl rfl)),
   c5_colorize_passthrough (initialState true []) "log" 4 "txt"
     (Or.inr (Or.inr (Or.inl (by decide)))),
   c5_colorize_passthrough (initialState true []) "tag" 0 "txt"
     (Or.inr (Or.inr (Or.inr (by decide))))⟩

/-- Claim C6: `SetTags`, `SetFormats`, `SetColors` and `SetParts` each return
exactly the table installed before the call and install the new table, so an
immediately following `Get*` returns the newly supplied table. -/
theorem c6_set_tables_return_previous (s : State) (nt : List String)
    (nf : List (String × String)) (nc : List (Int × String)) (np : List (String × Bool)) :
    (SetTags s nt).1 = s.tags ∧ GetTags (SetTags s nt).2 = nt ∧
    (SetFormats s nf).1 = s.formats ∧ GetFormats (SetFormats s nf).2 = nf ∧
    (SetColors s nc).1 = s.colors ∧ GetColors (SetColors s nc).2 = nc ∧
    (SetParts s np).1 = s.parts ∧ GetParts (SetParts s np).2 = np :=
  ⟨rfl, rfl, rfl, rfl, rfl, rfl, rfl, rfl⟩

/-- Claim C7: the code violates the claim — the condition
`w != os.Stderr || w != os.Stdout` is a tautology, so `SetOutput`
unconditionally clears the terminal-capability flag, even when the new sink is
the standard error or standard output stream; the claim (and the spec, which
asks for re-evaluation only when the sink is neither) is the intent. -/
theorem c7_setoutput_clears_flag_eval :
    (initialState true []).isTerminal = true ∧
    (SetOutput (initialState true []) Writer.stderr).isTerminal = false ∧
    (SetOutput (initialState true []) Writer.stdout).isTerminal = false := by
  decide

/-- Setting the caller-tracing flag to the value it already has is the
identity on the state. -/
theorem setTraceCallerFalse_id (s : State) (h : s.TraceCaller = false) :
    { s with TraceCaller := false } = s := by
  cases s with
  | mk V eoe wae tc cb co fc ne term tg fm cl pa off sk st =>
    have h' : tc = false := h
    subst h'
    rfl

/-- Claim C8, counterexample: with caller-tracing previously on, `TraceCall`
leaves caller-tracing off after returning — the deferred restore writes
`false`, not the prior value, so the mode is not restored. -/
theorem c8_counterexample :
    tracingState.TraceCaller = true ∧
    TraceCall tracingState sampleVal = some ([], { tracingState with TraceCaller := false }) ∧
    ({ tracingState with TraceCaller := false }).TraceCaller = false := by
  decide

/-- Claim C8 (amended): after `TraceCall` returns, the caller-tracing mode is
always `false`: the prior mode is preserved exactly when it was `false`, so
the forced-on tracing is scoped to the single call only in that case. -/
theorem c8_tracecall_clears_tracing (s : State) (v : GoValue) (ht : s.tags.length = 10) :
    ∃ out, TraceCall s v = some (out, { s with TraceCaller := false }) ∧
      (s.TraceCaller = false → { s with TraceCaller := false } = s) := by
  have hnt : ∀ m : String, ∃ lines,
      Log { s with TraceCaller := true } Ltrace m = some (lines, none) := by
    intro m
    refine Log_no_term _ Ltrace m (by decide) (by decide) ht ?_
    rintro ⟨hc | ⟨hc, _⟩, _⟩
    · exact absurd hc (by decide)
    · exact absurd hc (by decide)
  unfold TraceCall Trace
  by_cases hv : v.vStr = "[]"
  · rw [if_pos hv]
    obtain ⟨lines, hl⟩ := hnt _
    rw [hl]
    exact ⟨lines, rfl, fun h => setTraceCallerFalse_id s h⟩
  · rw [if_neg hv]
    obtain ⟨lines, hl⟩ := hnt _
    rw [hl]
    exact ⟨lines, rfl, fun h => setTraceCallerFalse_id s h⟩

/-- Witness for the amended C8 at the initial state. -/
theorem c8_tracecall_clears_tracing_witness :
    ∃ out, TraceCall (initialState false []) sampleVal =
        some (out, { initialState false [] with TraceCaller := false }) ∧
      ((initialState false []).TraceCaller = false →
        { initialState false [] with TraceCaller := false } = initialState false []) :=
  c8_tracecall_clears_tracing (initialState false []) sampleVal (by decide)

/-- Claim C9: the tag lookup is in bounds for every level in [0,9], but `Log`
is not total over arbitrary integer levels: with the verbosity raised to 10, a
call at level 10 or at level -1 indexes outside the 10-slot tag array and
panics (modelled by `none`). -/
theorem c9_tag_lookup_bounds (s : State) (ht : s.tags.length = 10) :
    (∀ L : Int, 0 ≤ L → L ≤ 9 → (tagsGet s.tags L).isSome = true) ∧
    Log { s with Verbosity := 10 } 10 "x" = none ∧
    Log { s with Verbosity := 10 } (-1) "x" = none := by
  refine ⟨?_, ?_, ?_⟩
  · intro L h0 h9
    obtain ⟨t, hts⟩ := tagsGet_total s.tags L h0 (by omega)
    rw [hts]
    rfl
  · have htag : tagsGet s.tags (10 : Int) = none := by
      unfold tagsGet
      rw [if_pos (by norm_num)]
      exact List.get?_eq_none.mpr (le_of_eq ht)
    have hemit : logEmit { s with Verbosity := 10 } 10 "x" = none := by
      simp only [logEmit, logfmt, htag]
      rw [if_pos (by norm_num : (10 : Int) ≥ 10)]
      rw [if_neg (fun hc => absurd hc.2 (by decide))]
    simp only [Log, hemit]
  · have htag : tagsGet s.tags (-1 : Int) = none := by
      unfold tagsGet
      rw [if_neg (by norm_num)]
    have hemit : logEmit { s with Verbosity := 10 } (-1) "x" = none := by
      simp only [logEmit, logfmt, htag]
      rw [if_pos (by norm_num : (10 : Int) ≥ -1)]
      rw [if_neg (fun hc => absurd hc.2 (by decide))]
    simp only [Log, hemit]

/-- Witness for C9 at the initial state. -/
theorem c9_tag_lookup_bounds_witness :
    (initialState false []).tags.length = 10 ∧
    Log { initialState false [] with Verbosity := 10 } 10 "x" = none :=
  ⟨by decide, (c9_tag_lookup_bounds (initialState false []) (by decide)).2.1⟩

/-- Claim C10: two configurations that differ only in the parts-map entry for
the `"prefix"` part make every log call behave identically — the renderer only
consults the color decorator for the `"tag"`, `"log"` and `"caller"` parts, so
the `"prefix"` toggle has no observable effect. -/
theorem c10_prefix_part_no_effect (s : State) (p2 : List (String × Bool))
    (L : Int) (msg : String)
    (hp : ∀ w : String, w ≠ "prefix" → partsGet s.parts w = partsGet p2 w) :
    Log { s with parts := p2 } L msg = Log s L msg := by
  have h1 := hp "tag" (by decide)
  have h2 := hp "log" (by decide)
  have h3 := hp "caller" (by decide)
  simp only [Log, logEmit, logfmt, colorize, setcolor, h1, h2, h3]

/-- The default parts map and `demoParts2` agree at every part other than
`"prefix"`. -/
theorem demoParts_agree :
    ∀ w : String, w ≠ "prefix" →
      partsGet (initialState false []).parts w = partsGet demoParts2 w := by
  intro w hw
  by_cases h1 : w = "caller"
  · subst h1
    decide
  by_cases h2 : w = "tag"
  · subst h2
    decide
  by_cases h3 : w = "log"
  · subst h3
    decide
  have e1 : (("caller" : String) == w) = false := beq_eq_false_iff_ne.mpr (fun h => h1 h.symm)
  have e2 : (("tag" : String) == w) = false := beq_eq_false_iff_ne.mpr (fun h => h2 h.symm)
  have e3 : (("log" : String) == w) = false := beq_eq_false_iff_ne.mpr (fun h => h3 h.symm)
  have e4 : (("prefix" : String) == w) = false := beq_eq_false_iff_ne.mpr (fun h => hw h.symm)
  simp [partsGet, lookupD, initialState, defaultParts, demoParts2, List.find?, e1, e2, e3, e4]

/-- Witness for C10 at the initial state against `demoParts2`, which differs
from the installed parts map exactly at the `"prefix"` key. -/
theorem c10_prefix_part_no_effect_witness :
    (∀ w : String, w ≠ "prefix" →
      partsGet (initialState false []).parts w = partsGet demoParts2 w) ∧
    Log { initialState false [] with parts := demoParts2 } 4 "m" =
      Log (initialState false []) 4 "m" :=
  ⟨demoParts_agree,
   c10_prefix_part_no_effect (initialState false []) demoParts2 4 "m" demoParts_agree⟩

end Slogan
